import Mathlib

set_option linter.unusedVariables false

/-!
Verification of the spreadsheet-viewer application.

Shallow embedding of the two entry points `src/app.py` and
`src/streamlit_app.py`: a credential resolver (`authorize_gspread`), a
table loader (`load_simple_data`) and a view composer (the top-level
script body).  Cell values coming back from the sheet are either text or
numbers; the pandas float NaN is modelled by `Option` (`none` = NaN).
Machine floats are modelled by `ℚ`; none of the verified properties
depends on floating-point rounding.
-/

/-- A cell value as returned by `worksheet.get_all_records()`:
either a string or a number. -/
inductive Value where
  | str : String → Value
  | num : ℚ → Value
deriving DecidableEq, Repr

/-- One record: a mapping from column name to value (a Python dict,
keys are unique; lookup takes the first binding). -/
abbrev Row := List (String × Value)

/-- Dict lookup; `none` models a missing key (a NaN cell once the rows
are assembled into a DataFrame). -/
def Row.get : Row → String → Option Value
  | [], _ => none
  | (k, v) :: r, c => if k = c then some v else Row.get r c

/-- `df[c] = v` for one row: rebind column `c` to `v`.  The new binding
is prepended; `Row.get` always sees it first, so the shadowed old
binding is unobservable. -/
def Row.set (r : Row) (c : String) (v : Value) : Row :=
  (c, v) :: r

/-- A pandas DataFrame: a column list plus the records.  A cell is read
with `Row.get`; a row that lacks a column's key holds NaN there. -/
structure DF where
  cols : List String
  rows : List Row
deriving DecidableEq, Repr

/-- `pd.DataFrame(list_of_dicts)`: the column set is the union of the
rows' keys in first-seen order. -/
def unionKeys (rows : List Row) : List String :=
  rows.foldl (fun acc r => acc ++ (r.map Prod.fst).filter (fun c => c ∉ acc)) []

def mkDF (data : List Row) : DF := ⟨unionKeys data, data⟩

/-- `df.empty`: no rows or no columns. -/
def DF.isEmpty (df : DF) : Bool := df.rows.isEmpty || df.cols.isEmpty

/-- The accumulated-time column name `누적시간`. -/
def HOURS : String := "누적시간"

/-- The categorical grouping column name `클러스터`. -/
def CLUSTER : String := "클러스터"

/-- The sentinel "all" filter choice `전체`. -/
def SENTINEL : Value := .str "전체"

/-- The hard-coded wanted display columns (app.py line 85). -/
def display_columns : List String := ["클러스터", "사번", "이름", "부서명", "누적시간"]

/-- Value of a digit character. -/
def digitVal (c : Char) : ℕ := c.toNat - 48

/-- Accumulate a digit string into a natural number. -/
def digitsVal (cs : List Char) : ℕ := cs.foldl (fun n c => n * 10 + digitVal c) 0

/-- Character-level phase of numeric parsing: optional sign, decimal
digits, optional fractional part.  Returns `(negative, integer part,
fraction digits, fraction length)`, or `none` when the string does not
parse.  Split off from `parseRat` so that concrete parses evaluate by
kernel reduction (no rational arithmetic here). -/
def parseParts (s : String) : Option (Bool × ℕ × ℕ × ℕ) :=
  let signed := s.data.head? = some '-' || s.data.head? = some '+'
  let cs := if signed then s.data.tail else s.data
  let neg := s.data.head? = some '-'
  let intPart := cs.takeWhile Char.isDigit
  let rest := cs.dropWhile Char.isDigit
  if rest.isEmpty then
    if intPart.isEmpty then none
    else some (neg, digitsVal intPart, 0, 0)
  else if rest.head? = some '.' && rest.tail.all Char.isDigit
      && !(intPart.isEmpty && rest.tail.isEmpty) then
    some (neg, digitsVal intPart, digitsVal rest.tail, rest.tail.length)
  else none

/-- Numeric parsing as performed by `pd.to_numeric`: the value denoted
by the parsed sign, integer and fraction parts.  (Scientific notation
and the special tokens inf/nan are outside the behaviours the spec
exercises and are not modelled.) -/
def parseRat (s : String) : Option ℚ :=
  (parseParts s).map (fun p =>
    (if p.1 then -1 else 1) * ((p.2.1 : ℚ) + (p.2.2.1 : ℚ) / ((10 : ℚ) ^ p.2.2.2)))

/-- `pd.to_numeric(x, errors='coerce').fillna(0)` applied to one cell:
numbers pass through, parseable strings parse, unparseable strings and
absent values become `0`. -/
def toNumeric (v : Option Value) : ℚ :=
  match v with
  | some (.num q) => q
  | some (.str s) => (parseRat s).getD 0
  | none => 0

/-- An authenticated gspread client (opaque handle). -/
structure Client where
  id : ℕ
deriving DecidableEq, Repr

/-- Outcome of the remote fetch (`open_by_url` / `worksheet` /
`get_all_records`), an input oracle for the loader. -/
inductive FetchResult where
  | success : List Row → FetchResult
  | worksheetNotFound : FetchResult
  | fetchError : String → FetchResult
deriving DecidableEq, Repr

/-- `load_simple_data(_client, sheet_url, sheet_name)` (identical in
both source files, app.py lines 37-59): `None` client soft-fails to an
empty frame with no message; a successful fetch builds the DataFrame
and coerces the `누적시간` column when present; `WorksheetNotFound`
and any other exception report an error and return an empty frame.
The returned list is the sequence of `st.error` messages. -/
def load_simple_data (client : Option Client) (fetch : FetchResult)
    (sheet_url : String) (sheet_name : String) : DF × List String :=
  match client with
  | none => (⟨[], []⟩, [])
  | some _ =>
    match fetch with
    | .success data =>
        let df := mkDF data
        if HOURS ∈ df.cols then
          (⟨df.cols, df.rows.map (fun r => r.set HOURS (.num (toNumeric (r.get HOURS))))⟩, [])
        else
          (df, [])
    | .worksheetNotFound =>
        (⟨[], []⟩, ["'" ++ sheet_name ++ "' 시트를 찾을 수 없습니다. 시트 이름을 확인하세요."])
    | .fetchError e =>
        (⟨[], []⟩, ["시트 로드 중 오류 발생: " ++ e])

/-! View Composer (app.py lines 81-121, streamlit_app.py lines 84-114) -/

/-- All cells of one column, in row order (`df[c]`); `none` is NaN. -/
def colCells (df : DF) (c : String) : List (Option Value) :=
  df.rows.map (fun r => r.get c)

/-- `available_columns` (app.py line 88): wanted columns present in the
frame, in wanted-list order. -/
def available_columns (df : DF) : List String :=
  display_columns.filter (fun c => c ∈ df.cols)

/-- `missing_columns` (app.py line 91): wanted columns absent from the
frame. -/
def missing_columns (df : DF) : List String :=
  display_columns.filter (fun c => c ∉ df.cols)

/-- Whether a cell holds a string (for Python's type-mixing checks). -/
def isStrCell : Option Value → Bool
  | some (.str _) => true
  | _ => false

/-- A list holding both a string and a non-string (number or NaN):
Python's `sorted` raises `TypeError` on such a list, since run
detection compares every adjacent pair. -/
def mixedTypes (cells : List (Option Value)) : Bool :=
  cells.any isStrCell && cells.any (fun v => !isStrCell v)

/-- Comparison used to model `sorted` on a homogeneous column.  The
mixed-type rows are unreachable (guarded by `mixedTypes`); NaN is
placed first, a harmless stand-in for Python's stable NaN handling,
which no verified property depends on. -/
def cellLe : Option Value → Option Value → Bool
  | none, _ => true
  | _, none => false
  | some (.num p), some (.num q) => p ≤ q
  | some (.str s), some (.str t) => s ≤ t
  | some (.num _), some (.str _) => true
  | some (.str _), some (.num _) => false

def insertCell (v : Option Value) : List (Option Value) → List (Option Value)
  | [] => [v]
  | w :: ws => if cellLe v w then v :: w :: ws else w :: insertCell v ws

/-- `sorted(...)`: insertion sort under `cellLe` (equal output to
Python's sort for a total order). -/
def sortCells : List (Option Value) → List (Option Value)
  | [] => []
  | v :: vs => insertCell v (sortCells vs)

/-- `series == value` for one cell, pandas semantics: NaN compares
unequal to everything (including NaN); values of different types
compare unequal; otherwise exact (case-sensitive) equality. -/
def cellEq : Option Value → Option Value → Bool
  | some v, some w => v = w
  | _, _ => false

/-- `Series.mean()`: raises on string cells, skips NaN cells, and is
NaN (`none`) when no numeric cell remains. -/
def meanCells (cells : List (Option Value)) : Except String (Option ℚ) :=
  if cells.any isStrCell then
    .error "TypeError: could not compute mean of non-numeric column"
  else
    let qs := cells.filterMap (fun v =>
      match v with
      | some (.num q) => some q
      | _ => none)
    if qs.isEmpty then .ok none
    else .ok (some (qs.foldl (· + ·) 0 / (qs.length : ℚ)))

/-- `f"{x:.1f}"` on the mean: one decimal place; the float NaN prints
as the raw token `nan`.  (Ties round half-up here; the difference from
Python's half-even ties is immaterial to the verified properties.) -/
def fmt1 (q : ℚ) : String :=
  let n : ℤ := round (q * 10)
  toString (n / 10) ++ "." ++ toString ((n % 10).natAbs)

/-- `st.metric` text `f"{avg_hours:.1f} 시간"`. -/
def metricText : Option ℚ → String
  | none => "nan 시간"
  | some q => fmt1 q ++ " 시간"

/-- Everything the composer script body puts on the page, in source
order, plus `exn`: an uncaught exception that aborts the rest of the
script run (Streamlit shows a traceback; later elements never render). -/
structure RenderOut where
  errors : List String
  warnings : List String
  availableColumns : List String
  missingColumns : List String
  filterOptions : Option (List (Option Value))
  displayedRows : Option (List (List (Option Value)))
  metric : Option String
  exn : Option String
deriving DecidableEq, Repr

/-- The script body shared by both entry points (app.py lines 81-121).
`msgEmpty` / `msgNoCols` are the two `st.error` texts in which the
files differ.  `selected` is the operator's selectbox choice. -/
def composeWith (msgEmpty msgNoCols : String) (df_raw : DF)
    (selected : Option Value) : RenderOut :=
  if df_raw.isEmpty then
    { errors := [msgEmpty], warnings := [], availableColumns := [],
      missingColumns := [], filterOptions := none, displayedRows := none,
      metric := none, exn := none }
  else
    let avail := available_columns df_raw
    let missing := missing_columns df_raw
    let warns := if missing.isEmpty then []
      else ["시트에서 다음 컬럼을 찾을 수 없습니다: " ++ String.intercalate ", " missing]
    if avail.isEmpty then
      { errors := [msgNoCols], warnings := warns, availableColumns := avail,
        missingColumns := missing, filterOptions := none, displayedRows := none,
        metric := none, exn := none }
    else if CLUSTER ∈ df_raw.cols then
      let uniq := (colCells df_raw CLUSTER).eraseDups
      if mixedTypes uniq then
        { errors := [], warnings := warns, availableColumns := avail,
          missingColumns := missing, filterOptions := none, displayedRows := none,
          metric := none,
          exn := some "TypeError: '<' not supported between mixed types" }
      else
        let opts := some SENTINEL :: sortCells uniq
        let filtered := if selected = some SENTINEL then df_raw.rows
          else df_raw.rows.filter (fun r => cellEq (r.get CLUSTER) selected)
        let disp := filtered.map (fun r => avail.map (fun c => r.get c))
        if HOURS ∈ avail then
          match meanCells (filtered.map (fun r => r.get HOURS)) with
          | .error e =>
              { errors := [], warnings := warns, availableColumns := avail,
                missingColumns := missing, filterOptions := some opts,
                displayedRows := some disp, metric := none, exn := some e }
          | .ok m =>
              { errors := [], warnings := warns, availableColumns := avail,
                missingColumns := missing, filterOptions := some opts,
                displayedRows := some disp, metric := some (metricText m),
                exn := none }
        else
          { errors := [], warnings := warns, availableColumns := avail,
            missingColumns := missing, filterOptions := some opts,
            displayedRows := some disp, metric := none,
            exn := some ("KeyError: " ++ HOURS) }
    else
      { errors := [], warnings := warns, availableColumns := avail,
        missingColumns := missing, filterOptions := none, displayedRows := none,
        metric := none, exn := some ("KeyError: " ++ CLUSTER) }

/-- app.py line 121's error text. -/
def APP_EMPTY_MSG : String := "'RAW' 시트에서 데이터를 불러오는 데 실패했거나 데이터가 없습니다."

/-- app.py line 118's error text. -/
def APP_NOCOLS_MSG : String :=
  "요청하신 컬럼이 시트에 하나도 존재하지 않습니다. 'RAW' 시트의 헤더를 확인하세요."

/-- streamlit_app.py line 114's error text. -/
def ST_EMPTY_MSG : String := "'클러스터별' 시트에서 데이터를 불러오는 데 실패했거나 데이터가 없습니다."

/-- streamlit_app.py line 111's error text. -/
def ST_NOCOLS_MSG : String :=
  "요청하신 컬럼이 시트에 하나도 존재하지 않습니다. '클러스터별' 시트의 헤더를 확인하세요."

/-- app.py's composer (error texts of lines 118 and 121). -/
def app_compose : DF → Option Value → RenderOut :=
  composeWith APP_EMPTY_MSG APP_NOCOLS_MSG

/-- streamlit_app.py's composer (error texts of lines 111 and 114). -/
def streamlit_compose : DF → Option Value → RenderOut :=
  composeWith ST_EMPTY_MSG ST_NOCOLS_MSG

/-! Credential Resolver (app.py lines 16-33, streamlit_app.py lines 23-50) -/

/-- The credential built by a resolver branch: from the local
`credentials.json` file, from `st.secrets["gcp_service_account"]`, or
from the top level of `st.secrets` itself. -/
inductive Credential where
  | fromFile : Credential
  | fromSecretGcp : Credential
  | fromSecretTop : Credential
deriving DecidableEq, Repr

/-- The ambient deployment state the resolvers consult: whether
`credentials.json` exists, which keys `st.secrets` carries, and what
`gspread.authorize` does with each credential (an oracle for the
outbound call; `.error e` models a raised exception with text `e`). -/
structure AuthEnv where
  fileExists : Bool
  secretsHasGcp : Bool
  secretsHasPrivateKey : Bool
  authOutcome : Credential → Except String Client

/-- `authorize_gspread()` of app.py (lines 17-33): the local file
first, else `st.secrets["gcp_service_account"]`, else report and
return `None`; a raised `gspread.authorize` is caught and reported. -/
def app_authorize (env : AuthEnv) : Option Client × List String :=
  if env.fileExists then
    match env.authOutcome .fromFile with
    | .ok c => (some c, [])
    | .error e => (none, ["gspread 인증 중 오류 발생: " ++ e])
  else if env.secretsHasGcp then
    match env.authOutcome .fromSecretGcp with
    | .ok c => (some c, [])
    | .error e => (none, ["gspread 인증 중 오류 발생: " ++ e])
  else
    (none, ["'credentials.json' 파일을 찾을 수 없거나 Streamlit Secrets가 설정되지 않았습니다."])

/-- `authorize_gspread()` of streamlit_app.py (lines 24-50): the local
file first, else `st.secrets` itself when it carries `private_key`,
else report (two messages) and return `None`. -/
def streamlit_authorize (env : AuthEnv) : Option Client × List String :=
  if env.fileExists then
    match env.authOutcome .fromFile with
    | .ok c => (some c, [])
    | .error e => (none, ["gspread 인증 중 오류 발생: " ++ e])
  else if env.secretsHasPrivateKey then
    match env.authOutcome .fromSecretTop with
    | .ok c => (some c, [])
    | .error e => (none, ["gspread 인증 중 오류 발생: " ++ e])
  else
    (none, ["인증 정보를 찾을 수 없습니다.",
            "로컬에서는 'credentials.json' 파일이 필요하고, 배포 시에는 Streamlit Cloud의 'Secrets' 설정이 필요합니다."])

/-- One whole page run: resolver messages, loader messages, the
composed view (absent when no client was obtained), and the final
`st.warning` of the auth-failed branch. -/
structure PageOut where
  authMsgs : List String
  loadMsgs : List String
  render : Option RenderOut
  finalWarning : Option String
deriving Repr

def SHEET_URL : String :=
  "https://docs.google.com/spreadsheets/d/1dvx7XQDZCp1f60bdoEi6KcUGpvghO3kxdGZJkj_ZSiE"

/-- app.py's script body (lines 74-123): authorize, load the
`클러스터별` sub-table, compose; on a `None` client only the final
warning renders. -/
def app_main (env : AuthEnv) (fetch : FetchResult)
    (selected : Option Value) : PageOut :=
  match app_authorize env with
  | (some c, msgs) =>
      let ld := load_simple_data (some c) fetch SHEET_URL "클러스터별"
      { authMsgs := msgs, loadMsgs := ld.2,
        render := some (app_compose ld.1 selected), finalWarning := none }
  | (none, msgs) =>
      { authMsgs := msgs, loadMsgs := [], render := none,
        finalWarning := some "Google Sheets 인증에 실패했습니다. 'credentials.json' 파일을 확인하세요." }

/-- streamlit_app.py's script body (lines 79-116). -/
def streamlit_main (env : AuthEnv) (fetch : FetchResult)
    (selected : Option Value) : PageOut :=
  match streamlit_authorize env with
  | (some c, msgs) =>
      let ld := load_simple_data (some c) fetch SHEET_URL "클러스터별"
      { authMsgs := msgs, loadMsgs := ld.2,
        render := some (streamlit_compose ld.1 selected), finalWarning := none }
  | (none, msgs) =>
      { authMsgs := msgs, loadMsgs := [], render := none,
        finalWarning := some "Google Sheets 인증에 실패했습니다. (Secrets 설정 또는 로컬 파일 확인)" }

/-! Concrete data used by witnesses and counterexamples -/

/-- Scenario A of the spec: three full records whose `누적시간` cells
are the strings `"20"`, `""` and `"15.5"`. -/
def scenarioA : List Row :=
  [[("클러스터", .str "A"), ("사번", .str "1"), ("이름", .str "가"),
    ("부서명", .str "X"), ("누적시간", .str "20")],
   [("클러스터", .str "B"), ("사번", .str "2"), ("이름", .str "나"),
    ("부서명", .str "Y"), ("누적시간", .str "")],
   [("클러스터", .str "C"), ("사번", .str "3"), ("이름", .str "다"),
    ("부서명", .str "Z"), ("누적시간", .str "15.5")]]

/-- A small two-row table with distinct cluster values. -/
def dfPair : DF :=
  ⟨["클러스터", "누적시간"],
   [[("클러스터", .str "A"), ("누적시간", .str "1")],
    [("클러스터", .str "B"), ("누적시간", .str "2")]]⟩

/-- A one-row table whose only column is the employee id — non-empty,
one wanted column available, but `클러스터` and `누적시간` absent. -/
def dfIdOnly : DF := ⟨["사번"], [[("사번", .str "1")]]⟩

/-- A one-row table holding a cluster value and a numeric hours cell
(the shape a loaded table has). -/
def dfOneA : DF :=
  ⟨["클러스터", "누적시간"], [[("클러스터", .str "A"), ("누적시간", .num 5)]]⟩

/-- The table produced by a successful load. -/
def loadedDF (c : Client) (data : List Row) (url name : String) : DF :=
  (load_simple_data (some c) (.success data) url name).1

/-- A single record carrying only hours and cluster. -/
def dataHoursOnly : List Row :=
  [[("누적시간", .str "7"), ("클러스터", .str "A")]]

/-- Scenario B-shaped data: a full record except the department. -/
def dataNoDept : List Row :=
  [[("클러스터", .str "A"), ("사번", .str "1"), ("이름", .str "가"),
    ("누적시간", .str "2")]]

/-! Helper lemmas -/

theorem Row.get_set_same (r : Row) (c : String) (v : Value) :
    Row.get (r.set c v) c = some v := by
  simp [Row.set, Row.get]

theorem Row.get_set_ne (r : Row) (c c' : String) (v : Value) (h : c' ≠ c) :
    Row.get (r.set c v) c' = Row.get r c' := by
  have hne : ¬ c = c' := fun he => h he.symm
  simp [Row.set, Row.get, hne]

/-- The two composers differ only in their two error strings: every
field except `errors` is message-independent. -/
theorem composeWith_fields (m₁ m₂ m₁' m₂' : String) (df : DF) (sel : Option Value) :
    (fun o : RenderOut =>
        (o.warnings, o.availableColumns, o.missingColumns, o.filterOptions,
         o.displayedRows, o.metric, o.exn)) (composeWith m₁ m₂ df sel)
      = (fun o : RenderOut =>
        (o.warnings, o.availableColumns, o.missingColumns, o.filterOptions,
         o.displayedRows, o.metric, o.exn)) (composeWith m₁' m₂' df sel) := by
  simp only [composeWith]
  repeat' split <;> try rfl

theorem cellEq_some (x : Option Value) (v : Value) :
    cellEq x (some v) = decide (x = some v) := by
  rcases x with _ | w
  · rfl
  · simp [cellEq]

theorem cluster_mem_available (df : DF) (hc : CLUSTER ∈ df.cols) :
    CLUSTER ∈ available_columns df :=
  List.mem_filter.2 ⟨by simp [display_columns, CLUSTER], by simpa using hc⟩

theorem available_isEmpty_false (df : DF) (hc : CLUSTER ∈ df.cols) :
    (available_columns df).isEmpty = false := by
  cases h : available_columns df with
  | nil =>
      have := cluster_mem_available df hc
      rw [h] at this
      exact absurd this (List.not_mem_nil _)
  | cons a l => rfl

theorem hours_mem_available (df : DF) (hh : HOURS ∈ df.cols) :
    HOURS ∈ available_columns df :=
  List.mem_filter.2 ⟨by simp [display_columns, HOURS], by simpa using hh⟩

theorem loadedDF_cols (c : Client) (data : List Row) (url name : String) :
    (loadedDF c data url name).cols = (mkDF data).cols := by
  simp only [loadedDF, load_simple_data]
  split <;> rfl

theorem loadedDF_rows (c : Client) (data : List Row) (url name : String)
    (hh : HOURS ∈ (mkDF data).cols) :
    (loadedDF c data url name).rows
      = data.map (fun r => r.set HOURS (.num (toNumeric (r.get HOURS)))) := by
  simp [loadedDF, load_simple_data, mkDF, show HOURS ∈ unionKeys data from hh]

/-- Every hours cell of a successfully loaded table (with the hours
column present) is numeric — the coercion leaves no strings behind. -/
theorem loadedDF_hours_numeric (c : Client) (data : List Row) (url name : String)
    (hh : HOURS ∈ (mkDF data).cols) :
    ∀ r ∈ (loadedDF c data url name).rows, isStrCell (r.get HOURS) = false := by
  intro r hr
  rw [loadedDF_rows c data url name hh] at hr
  obtain ⟨r₀, _, rfl⟩ := List.mem_map.1 hr
  simp [Row.get_set_same, isStrCell]

/-- `Series.mean` cannot raise on a column with no string cell. -/
theorem meanCells_ok (cells : List (Option Value))
    (h : ∀ v ∈ cells, isStrCell v = false) :
    ∃ m, meanCells cells = .ok m := by
  have hany : cells.any isStrCell = false := by
    rw [List.any_eq_false]
    intro v hv
    simp [h v hv]
  rw [meanCells, hany]
  simp only [Bool.false_eq_true, if_false]
  split <;> exact ⟨_, rfl⟩

/-- In the reachable branch (non-empty frame, cluster column present,
no mixed-type sort failure) the composer always shows the filter
options and the filtered projected rows, whatever happens to the
metric afterwards. -/
theorem composeWith_display (m₁ m₂ : String) (df : DF) (sel : Option Value)
    (hne : df.isEmpty = false) (hc : CLUSTER ∈ df.cols)
    (hmix : mixedTypes ((colCells df CLUSTER).eraseDups) = false) :
    (composeWith m₁ m₂ df sel).displayedRows
      = some ((if sel = some SENTINEL then df.rows
          else df.rows.filter (fun r => cellEq (r.get CLUSTER) sel)).map
          (fun r => (available_columns df).map (fun c => r.get c)))
    ∧ (composeWith m₁ m₂ df sel).filterOptions
      = some (some SENTINEL :: sortCells ((colCells df CLUSTER).eraseDups))
    ∧ (composeWith m₁ m₂ df sel).errors = [] := by
  have havail := available_isEmpty_false df hc
  simp only [composeWith, hne, havail, hc, hmix, Bool.false_eq_true,
    if_false, if_true, ite_true, ite_false, reduceIte]
  refine ⟨?_, ?_, ?_⟩ <;> (split <;> (try split) <;> rfl)

/-! Claim theorems -/

/-- C5: for every loaded table, `available_columns` is exactly the
wanted display columns present in the table and is an order-preserving
(sublist) subset of the fixed wanted list; `missing_columns` is exactly
the wanted columns absent from the table. -/
theorem available_columns_spec (df : DF) :
    List.Sublist (available_columns df) display_columns
    ∧ (∀ c, c ∈ available_columns df ↔ c ∈ display_columns ∧ c ∈ df.cols)
    ∧ (∀ c, c ∈ missing_columns df ↔ c ∈ display_columns ∧ c ∉ df.cols) := by
  refine ⟨List.filter_sublist _, fun c => ?_, fun c => ?_⟩ <;>
    simp [available_columns, missing_columns, List.mem_filter]

/-- C6: the load operation is a total function (never raises to its
caller) and returns an empty table with: no reported error on a null
handle; the sub-table-not-found report when the named sheet is absent;
and the generic load-failure report (carrying the cause) on any other
fetch error. -/
theorem load_failure_spec :
    (DF.mk [] []).isEmpty = true
    ∧ (∀ fetch url name, load_simple_data none fetch url name = (⟨[], []⟩, []))
    ∧ (∀ c url name, load_simple_data (some c) .worksheetNotFound url name
        = (⟨[], []⟩, ["'" ++ name ++ "' 시트를 찾을 수 없습니다. 시트 이름을 확인하세요."]))
    ∧ (∀ c url name e, load_simple_data (some c) (.fetchError e) url name
        = (⟨[], []⟩, ["시트 로드 중 오류 발생: " ++ e])) := by
  refine ⟨rfl, fun fetch url name => ?_, fun c url name => rfl, fun c url name e => rfl⟩
  cases fetch <;> rfl

/-- C7: on a non-empty table in which no wanted column is present, the
composer emits the visible error and stops: no filter control, no data
table, no metric, and no exception either. -/
theorem no_columns_error_stop (df : DF) (sel : Option Value)
    (hne : df.isEmpty = false) (hav : available_columns df = []) :
    app_compose df sel =
      { errors := ["요청하신 컬럼이 시트에 하나도 존재하지 않습니다. 'RAW' 시트의 헤더를 확인하세요."],
        warnings := ["시트에서 다음 컬럼을 찾을 수 없습니다: "
          ++ String.intercalate ", " (missing_columns df)],
        availableColumns := [], missingColumns := missing_columns df,
        filterOptions := none, displayedRows := none, metric := none,
        exn := none } := by
  have hCnot : CLUSTER ∉ df.cols := by
    intro hmem
    have hin : CLUSTER ∈ available_columns df :=
      List.mem_filter.2 ⟨by simp [display_columns, CLUSTER], by simpa using hmem⟩
    rw [hav] at hin
    exact absurd hin (List.not_mem_nil _)
  have h5 : CLUSTER ∈ missing_columns df :=
    List.mem_filter.2 ⟨by simp [display_columns, CLUSTER], by simpa using hCnot⟩
  have hmiss : (missing_columns df).isEmpty = false := by
    cases hm : missing_columns df with
    | nil => rw [hm] at h5; exact absurd h5 (List.not_mem_nil _)
    | cons a l => rfl
  simp [app_compose, composeWith, APP_NOCOLS_MSG, hne, hav, hmiss]

/-- C7 witness: a non-empty one-column table with no wanted column. -/
theorem no_columns_error_stop_witness :
    app_compose ⟨["x"], [[("x", Value.str "v")]]⟩ (some SENTINEL) =
      { errors := ["요청하신 컬럼이 시트에 하나도 존재하지 않습니다. 'RAW' 시트의 헤더를 확인하세요."],
        warnings := ["시트에서 다음 컬럼을 찾을 수 없습니다: "
          ++ String.intercalate ", " (missing_columns ⟨["x"], [[("x", Value.str "v")]]⟩)],
        availableColumns := [],
        missingColumns := missing_columns ⟨["x"], [[("x", Value.str "v")]]⟩,
        filterOptions := none, displayedRows := none, metric := none,
        exn := none } :=
  no_columns_error_stop ⟨["x"], [[("x", Value.str "v")]]⟩ (some SENTINEL) rfl (by decide)

/-- C10: every empty table reaching the composer yields the same
"failed to load or no data" error output with nothing else rendered;
in particular a load failure, a missing worksheet, a null handle and a
successful load of zero records are indistinguishable downstream. -/
theorem empty_table_uniform_error :
    (∀ df sel, df.isEmpty = true →
      app_compose df sel =
        { errors := ["'RAW' 시트에서 데이터를 불러오는 데 실패했거나 데이터가 없습니다."],
          warnings := [], availableColumns := [], missingColumns := [],
          filterOptions := none, displayedRows := none, metric := none,
          exn := none })
    ∧ (∀ c e url name sel,
        app_compose (load_simple_data (some c) (.fetchError e) url name).1 sel
          = app_compose (load_simple_data (some c) (.success []) url name).1 sel)
    ∧ (∀ c url name sel,
        app_compose (load_simple_data (some c) .worksheetNotFound url name).1 sel
          = app_compose (load_simple_data (some c) (.success []) url name).1 sel)
    ∧ (∀ fetch url name sel,
        app_compose (load_simple_data none fetch url name).1 sel
          = app_compose (load_simple_data none (.success []) url name).1 sel) := by
  refine ⟨fun df sel h => by simp [app_compose, composeWith, APP_EMPTY_MSG, h],
          fun c e url name sel => rfl, fun c url name sel => rfl,
          fun fetch url name sel => by cases fetch <;> rfl⟩

/-- C10 witness: the first conjunct applied to the empty frame. -/
theorem empty_table_uniform_error_witness :
    (DF.mk [] []).isEmpty = true
    ∧ app_compose ⟨[], []⟩ (some SENTINEL) =
        { errors := ["'RAW' 시트에서 데이터를 불러오는 데 실패했거나 데이터가 없습니다."],
          warnings := [], availableColumns := [], missingColumns := [],
          filterOptions := none, displayedRows := none, metric := none,
          exn := none } :=
  ⟨rfl, empty_table_uniform_error.1 ⟨[], []⟩ (some SENTINEL) rfl⟩

/-- C8: credential resolution tries the local file first (regardless
of any configured secret), falls back to the environment secret only
when the file is absent, fails with the configuration-hint message and
renders nothing further when neither exists, and reports the
underlying cause when authorization against the remote service
throws. -/
theorem authorize_resolution_spec (env : AuthEnv) (fetch : FetchResult)
    (sel : Option Value) :
    (∀ c, env.fileExists = true → env.authOutcome .fromFile = .ok c →
        app_authorize env = (some c, []))
    ∧ (∀ e, env.fileExists = true → env.authOutcome .fromFile = .error e →
        app_authorize env = (none, ["gspread 인증 중 오류 발생: " ++ e]))
    ∧ (∀ c, env.fileExists = false → env.secretsHasGcp = true →
        env.authOutcome .fromSecretGcp = .ok c →
        app_authorize env = (some c, []))
    ∧ (∀ e, env.fileExists = false → env.secretsHasGcp = true →
        env.authOutcome .fromSecretGcp = .error e →
        app_authorize env = (none, ["gspread 인증 중 오류 발생: " ++ e]))
    ∧ (env.fileExists = false → env.secretsHasGcp = false →
        app_authorize env = (none,
          ["'credentials.json' 파일을 찾을 수 없거나 Streamlit Secrets가 설정되지 않았습니다."])
        ∧ app_main env fetch sel =
            { authMsgs :=
                ["'credentials.json' 파일을 찾을 수 없거나 Streamlit Secrets가 설정되지 않았습니다."],
              loadMsgs := [], render := none,
              finalWarning :=
                some "Google Sheets 인증에 실패했습니다. 'credentials.json' 파일을 확인하세요." }) := by
  refine ⟨fun c h1 h2 => ?_, fun e h1 h2 => ?_, fun c h1 h2 h3 => ?_,
          fun e h1 h2 h3 => ?_, fun h1 h2 => ⟨?_, ?_⟩⟩ <;>
    simp [app_authorize, app_main, *]

/-- C8 witness: no file and no secret fails with the hint message; a
present file with a succeeding authorization yields the handle. -/
theorem authorize_resolution_spec_witness :
    app_authorize ⟨false, false, false, fun _ => .error "boom"⟩
      = (none, ["'credentials.json' 파일을 찾을 수 없거나 Streamlit Secrets가 설정되지 않았습니다."])
    ∧ app_authorize ⟨true, true, true, fun _ => .ok ⟨7⟩⟩ = (some ⟨7⟩, []) :=
  ⟨((authorize_resolution_spec ⟨false, false, false, fun _ => .error "boom"⟩
      .worksheetNotFound none).2.2.2.2 rfl rfl).1,
   (authorize_resolution_spec ⟨true, true, true, fun _ => .ok ⟨7⟩⟩
      .worksheetNotFound none).1 ⟨7⟩ rfl rfl⟩

/-- C9: when the credential resolves from the local file and the same
remote table is returned, the two entry-point programs agree on the
available columns, the filter options, the displayed rows and the mean
metric (they differ only in error-message wording). -/
theorem pipelines_agree (env : AuthEnv) (fetch : FetchResult)
    (sel : Option Value) (c : Client)
    (hfile : env.fileExists = true)
    (hok : env.authOutcome .fromFile = .ok c) :
    (app_main env fetch sel).render.map RenderOut.availableColumns
        = (streamlit_main env fetch sel).render.map RenderOut.availableColumns
    ∧ (app_main env fetch sel).render.map RenderOut.filterOptions
        = (streamlit_main env fetch sel).render.map RenderOut.filterOptions
    ∧ (app_main env fetch sel).render.map RenderOut.displayedRows
        = (streamlit_main env fetch sel).render.map RenderOut.displayedRows
    ∧ (app_main env fetch sel).render.map RenderOut.metric
        = (streamlit_main env fetch sel).render.map RenderOut.metric := by
  have ha : app_authorize env = (some c, []) := by
    simp [app_authorize, hfile, hok]
  have hs : streamlit_authorize env = (some c, []) := by
    simp [streamlit_authorize, hfile, hok]
  have hf := composeWith_fields APP_EMPTY_MSG APP_NOCOLS_MSG
    ST_EMPTY_MSG ST_NOCOLS_MSG
    (load_simple_data (some c) fetch SHEET_URL "클러스터별").1 sel
  simp only [Prod.mk.injEq] at hf
  obtain ⟨h1, h2, h3, h4, h5, h6, h7⟩ := hf
  simp [app_main, streamlit_main, ha, hs, app_compose, streamlit_compose,
    h2, h4, h5, h6]

/-- C9 witness: a file-resolved environment with an empty fetch. -/
theorem pipelines_agree_witness :
    (app_main ⟨true, false, false, fun _ => .ok ⟨0⟩⟩ (.success []) none).render.map
        RenderOut.availableColumns
      = (streamlit_main ⟨true, false, false, fun _ => .ok ⟨0⟩⟩ (.success []) none).render.map
        RenderOut.availableColumns
    ∧ (app_main ⟨true, false, false, fun _ => .ok ⟨0⟩⟩ (.success []) none).render.map
        RenderOut.metric
      = (streamlit_main ⟨true, false, false, fun _ => .ok ⟨0⟩⟩ (.success []) none).render.map
        RenderOut.metric :=
  ⟨(pipelines_agree ⟨true, false, false, fun _ => .ok ⟨0⟩⟩ (.success []) none ⟨0⟩ rfl rfl).1,
   (pipelines_agree ⟨true, false, false, fun _ => .ok ⟨0⟩⟩ (.success []) none ⟨0⟩ rfl rfl).2.2.2⟩

/-- C2: with the filter control present (non-empty table, cluster
column available, sortable options), selecting the sentinel `전체`
applies no row restriction — the displayed rows are all rows projected
onto the available columns, so their count equals the unfiltered row
count — while selecting a concrete value keeps exactly the rows whose
`클러스터` cell equals that value under exact (case-sensitive) value
equality. -/
theorem filter_selection_spec (df : DF) (v : Value)
    (hne : df.isEmpty = false) (hc : CLUSTER ∈ df.cols)
    (hmix : mixedTypes ((colCells df CLUSTER).eraseDups) = false) :
    ((app_compose df (some SENTINEL)).displayedRows
        = some (df.rows.map (fun r => (available_columns df).map (fun c => r.get c)))
      ∧ (∀ l, (app_compose df (some SENTINEL)).displayedRows = some l →
          l.length = df.rows.length))
    ∧ (v ≠ SENTINEL →
        (app_compose df (some v)).displayedRows
          = some ((df.rows.filter (fun r => r.get CLUSTER = some v)).map
              (fun r => (available_columns df).map (fun c => r.get c)))) := by
  simp only [app_compose]
  have hsen := (composeWith_display APP_EMPTY_MSG APP_NOCOLS_MSG df
    (some SENTINEL) hne hc hmix).1
  rw [if_pos rfl] at hsen
  refine ⟨⟨hsen, fun l hl => ?_⟩, fun hv => ?_⟩
  · have h2 : some (df.rows.map (fun r => (available_columns df).map (fun c => r.get c)))
        = some l := hsen.symm.trans hl
    simp only [Option.some.injEq] at h2
    rw [← h2, List.length_map]
  · have hval := (composeWith_display APP_EMPTY_MSG APP_NOCOLS_MSG df
      (some v) hne hc hmix).1
    have hne2 : ¬ (some v = some SENTINEL) := fun he => hv (Option.some.inj he)
    rw [if_neg hne2] at hval
    rw [hval]
    have hpred : ∀ r ∈ df.rows,
        cellEq (Row.get r CLUSTER) (some v) = decide (Row.get r CLUSTER = some v) :=
      fun r _ => cellEq_some _ v
    rw [List.filter_congr hpred]

/-- C2 witness: the two-row table; the sentinel shows both projected
rows, the concrete value `"A"` exactly the matching row. -/
theorem filter_selection_spec_witness :
    (app_compose dfPair (some SENTINEL)).displayedRows
      = some [[some (.str "A"), some (.str "1")], [some (.str "B"), some (.str "2")]]
    ∧ (app_compose dfPair (some (Value.str "A"))).displayedRows
      = some [[some (.str "A"), some (.str "1")]] := by
  have h := filter_selection_spec dfPair (Value.str "A") rfl (by decide) (by decide)
  exact ⟨h.1.1.trans (by decide), (h.2 (by decide)).trans (by decide)⟩

/-- C3 counterexample: on a non-empty table, a selection matching no
row leaves the filtered row set empty; the composer then renders the
metric as the raw token `nan 시간` — not zero and not a no-data
indicator (it does not crash). -/
theorem empty_mean_renders_nan_cx :
    dfOneA.isEmpty = false
    ∧ (app_compose dfOneA (some (Value.str "B"))).displayedRows = some []
    ∧ (app_compose dfOneA (some (Value.str "B"))).exn = none
    ∧ (app_compose dfOneA (some (Value.str "B"))).metric = some "nan 시간"
    ∧ ¬ (app_compose dfOneA (some (Value.str "B"))).metric = some "0.0 시간" := by
  decide

/-- C3 (amended): when the filtered/projected row set is empty, the
composer does not crash, but the rendered mean is the NaN-like raw
token `nan` (pandas' mean of an empty series formatted by `:.1f`),
rather than zero or an explicit no-data indicator. -/
theorem empty_mean_renders_nan (df : DF) (sel : Option Value)
    (hne : df.isEmpty = false) (hc : CLUSTER ∈ df.cols) (hh : HOURS ∈ df.cols)
    (hmix : mixedTypes ((colCells df CLUSTER).eraseDups) = false)
    (hsen : ¬ sel = some SENTINEL)
    (hfil : df.rows.filter (fun r => cellEq (r.get CLUSTER) sel) = []) :
    (app_compose df sel).metric = some "nan 시간"
    ∧ (app_compose df sel).exn = none := by
  have havail := available_isEmpty_false df hc
  have hhav := hours_mem_available df hh
  simp only [app_compose, composeWith, hne, havail, hc, hmix, hhav,
    Bool.false_eq_true, if_false, if_true, ite_true, ite_false, reduceIte,
    hsen, hfil, List.map_nil]
  simp [meanCells, metricText]

/-- C3 witness: the amended statement at the counterexample's input. -/
theorem empty_mean_renders_nan_witness :
    (app_compose dfOneA (some (Value.str "B"))).metric = some "nan 시간"
    ∧ (app_compose dfOneA (some (Value.str "B"))).exn = none :=
  empty_mean_renders_nan dfOneA (some (Value.str "B")) rfl (by decide)
    (by decide) (by decide) (by decide) (by decide)

/-- C4 counterexample: a non-empty table with an available wanted
column (`사번`) but no `클러스터` column: rendering does not degrade
to a warning — it raises an uncaught `KeyError` at the filter-options
step and renders no table and no metric at all. -/
theorem missing_cluster_crashes_cx :
    dfIdOnly.isEmpty = false
    ∧ available_columns dfIdOnly = ["사번"]
    ∧ (app_compose dfIdOnly (some SENTINEL)).exn = some ("KeyError: " ++ CLUSTER)
    ∧ (app_compose dfIdOnly (some SENTINEL)).displayedRows = none
    ∧ (app_compose dfIdOnly (some SENTINEL)).metric = none := by
  decide

/-- C4 (amended): for a successfully loaded non-empty table in which
the cluster and hours columns are present (and the cluster values are
homogeneously sortable), rendering completes without an uncaught
exception: missing wanted columns only produce the visible warning,
the remaining available columns are rendered, and a metric is shown.
When `클러스터` or `누적시간` is absent, rendering instead dies with a
`KeyError` (see the counterexample). -/
theorem render_with_key_columns (c : Client) (data : List Row)
    (url name : String) (sel : Option Value)
    (hne : (loadedDF c data url name).isEmpty = false)
    (hc : CLUSTER ∈ (loadedDF c data url name).cols)
    (hh : HOURS ∈ (loadedDF c data url name).cols)
    (hmix : mixedTypes ((colCells (loadedDF c data url name) CLUSTER).eraseDups)
      = false) :
    (app_compose (loadedDF c data url name) sel).exn = none
    ∧ (app_compose (loadedDF c data url name) sel).errors = []
    ∧ (app_compose (loadedDF c data url name) sel).warnings
        = (if (missing_columns (loadedDF c data url name)).isEmpty then []
           else ["시트에서 다음 컬럼을 찾을 수 없습니다: "
             ++ String.intercalate ", " (missing_columns (loadedDF c data url name))])
    ∧ (app_compose (loadedDF c data url name) sel).displayedRows
        = some ((if sel = some SENTINEL then (loadedDF c data url name).rows
            else (loadedDF c data url name).rows.filter
              (fun r => cellEq (r.get CLUSTER) sel)).map
            (fun r => (available_columns (loadedDF c data url name)).map
              (fun col => r.get col)))
    ∧ (∃ m, (app_compose (loadedDF c data url name) sel).metric = some m) := by
  have hh' : HOURS ∈ (mkDF data).cols := loadedDF_cols c data url name ▸ hh
  have hnum := loadedDF_hours_numeric c data url name hh'
  have havail := available_isEmpty_false (loadedDF c data url name) hc
  have hhav := hours_mem_available (loadedDF c data url name) hh
  have hcells : ∀ v ∈ (if sel = some SENTINEL then (loadedDF c data url name).rows
      else (loadedDF c data url name).rows.filter
        (fun r => cellEq (r.get CLUSTER) sel)).map (fun r => r.get HOURS),
      isStrCell v = false := by
    intro v hv
    obtain ⟨r, hr, rfl⟩ := List.mem_map.1 hv
    apply hnum
    split at hr
    · exact hr
    · exact (List.mem_filter.1 hr).1
  obtain ⟨m, hm⟩ := meanCells_ok _ hcells
  simp only [app_compose, composeWith, hne, havail, hc, hmix, hhav,
    Bool.false_eq_true, if_false, if_true, ite_true, ite_false, reduceIte]
  rw [hm]
  exact ⟨rfl, rfl, rfl, rfl, metricText m, rfl⟩

/-- C4 witness: Scenario B-shaped data (department column missing):
the load succeeds, the missing column is exactly `부서명`, and the
composer renders warning, columns and metric without an exception. -/
theorem render_with_key_columns_witness :
    missing_columns (loadedDF ⟨0⟩ dataNoDept SHEET_URL "클러스터별") = ["부서명"]
    ∧ ((app_compose (loadedDF ⟨0⟩ dataNoDept SHEET_URL "클러스터별") (some SENTINEL)).exn
        = none
      ∧ (app_compose (loadedDF ⟨0⟩ dataNoDept SHEET_URL "클러스터별") (some SENTINEL)).errors
        = []
      ∧ (app_compose (loadedDF ⟨0⟩ dataNoDept SHEET_URL "클러스터별") (some SENTINEL)).warnings
          = (if (missing_columns (loadedDF ⟨0⟩ dataNoDept SHEET_URL "클러스터별")).isEmpty then []
             else ["시트에서 다음 컬럼을 찾을 수 없습니다: "
               ++ String.intercalate ", "
                 (missing_columns (loadedDF ⟨0⟩ dataNoDept SHEET_URL "클러스터별"))])
      ∧ (app_compose (loadedDF ⟨0⟩ dataNoDept SHEET_URL "클러스터별") (some SENTINEL)).displayedRows
          = some ((if (some SENTINEL : Option Value) = some SENTINEL
              then (loadedDF ⟨0⟩ dataNoDept SHEET_URL "클러스터별").rows
              else (loadedDF ⟨0⟩ dataNoDept SHEET_URL "클러스터별").rows.filter
                (fun r => cellEq (r.get CLUSTER) (some SENTINEL))).map
              (fun r => (available_columns (loadedDF ⟨0⟩ dataNoDept SHEET_URL "클러스터별")).map
                (fun col => r.get col)))
      ∧ (∃ m, (app_compose (loadedDF ⟨0⟩ dataNoDept SHEET_URL "클러스터별") (some SENTINEL)).metric
          = some m)) :=
  ⟨by decide,
   render_with_key_columns ⟨0⟩ dataNoDept SHEET_URL "클러스터별" (some SENTINEL)
     (by decide) (by decide) (by decide) (by decide)⟩

/-- C1: a successful load coerces the `누적시간` column per row to the
parsed number (unparseable, empty or absent cells become `0`) and
passes every other column through unmodified; on Scenario A's three
rows (`"20"`, `""`, `"15.5"`) the coerced values are `[20, 0, 15.5]`,
whose mean `71/6` renders to one decimal as `11.8`. -/
theorem load_coerces_hours :
    (∀ (c : Client) (data : List Row) (url name : String),
      HOURS ∈ (mkDF data).cols →
        ((loadedDF c data url name).rows.map (fun r => Row.get r HOURS)
            = data.map (fun r => some (Value.num (toNumeric (Row.get r HOURS))))
          ∧ ∀ col, ¬ col = HOURS →
              (loadedDF c data url name).rows.map (fun r => Row.get r col)
                = data.map (fun r => Row.get r col)))
    ∧ toNumeric (some (.str "abc")) = 0
    ∧ toNumeric (some (.str "")) = 0
    ∧ toNumeric none = 0
    ∧ toNumeric (some (.str "12.5")) = 25 / 2
    ∧ (loadedDF ⟨0⟩ scenarioA SHEET_URL "클러스터별").rows.map (fun r => Row.get r HOURS)
        = [some (.num 20), some (.num 0), some (.num (31 / 2))]
    ∧ meanCells ((loadedDF ⟨0⟩ scenarioA SHEET_URL "클러스터별").rows.map
          (fun r => Row.get r HOURS))
        = .ok (some (71 / 6))
    ∧ fmt1 (71 / 6) = "11.8" := by
  have hgen : ∀ (c : Client) (data : List Row) (url name : String),
      HOURS ∈ (mkDF data).cols →
        ((loadedDF c data url name).rows.map (fun r => Row.get r HOURS)
            = data.map (fun r => some (Value.num (toNumeric (Row.get r HOURS))))
          ∧ ∀ col, ¬ col = HOURS →
              (loadedDF c data url name).rows.map (fun r => Row.get r col)
                = data.map (fun r => Row.get r col)) := by
    intro c data url name hh
    constructor
    · rw [loadedDF_rows c data url name hh, List.map_map]
      apply List.map_congr_left
      intro r hr
      simp [Function.comp, Row.get_set_same]
    · intro col hcol
      rw [loadedDF_rows c data url name hh, List.map_map]
      apply List.map_congr_left
      intro r hr
      simp only [Function.comp]
      exact Row.get_set_ne r HOURS col _ hcol
  have h20 : parseParts "20" = some (false, 20, 0, 0) := by decide
  have h0 : parseParts "" = none := by decide
  have h155 : parseParts "15.5" = some (false, 15, 5, 1) := by decide
  have hsc : (loadedDF ⟨0⟩ scenarioA SHEET_URL "클러스터별").rows.map
      (fun r => Row.get r HOURS)
      = [some (.num 20), some (.num 0), some (.num (31 / 2))] := by
    rw [loadedDF_rows ⟨0⟩ scenarioA SHEET_URL "클러스터별" (by decide)]
    simp [scenarioA, Row.set, Row.get, toNumeric, parseRat, h20, h0, h155, HOURS]
    norm_num
  have hmean : meanCells [some (.num 20), some (.num 0), some (.num (31 / 2))]
      = .ok (some (71 / 6)) := by
    simp [meanCells, isStrCell]
    norm_num
  have hround : round ((71 : ℚ) / 6 * 10) = 118 := by
    rw [round_eq]
    have h1 : ((71 : ℚ) / 6 * 10 + 1 / 2) = 713 / 6 := by norm_num
    rw [h1, Int.floor_eq_iff]
    constructor <;> norm_num
  have hfmt : fmt1 ((71 : ℚ) / 6) = "11.8" := by
    simp only [fmt1, hround]
    decide
  refine ⟨hgen, ?_, ?_, rfl, ?_, hsc, hsc ▸ hmean, hfmt⟩
  · simp [toNumeric, parseRat, show parseParts "abc" = none from by decide]
  · simp [toNumeric, parseRat, h0]
  · simp [toNumeric, parseRat, show parseParts "12.5" = some (false, 12, 5, 1) from by decide]
    norm_num

/-- C1 witness: the per-row coercion law applied to a one-record
fetch, for the hours column and for a pass-through column. -/
theorem load_coerces_hours_witness :
    (loadedDF ⟨0⟩ dataHoursOnly SHEET_URL "클러스터별").rows.map
        (fun r => Row.get r HOURS)
      = dataHoursOnly.map (fun r => some (Value.num (toNumeric (Row.get r HOURS))))
    ∧ (loadedDF ⟨0⟩ dataHoursOnly SHEET_URL "클러스터별").rows.map
        (fun r => Row.get r CLUSTER)
      = dataHoursOnly.map (fun r => Row.get r CLUSTER) :=
  ⟨(load_coerces_hours.1 ⟨0⟩ dataHoursOnly SHEET_URL "클러스터별" (by decide)).1,
   (load_coerces_hours.1 ⟨0⟩ dataHoursOnly SHEET_URL "클러스터별" (by decide)).2
     CLUSTER (by decide)⟩

/-- C5 witness: the characterisation applied to the id-only table. -/
theorem available_columns_spec_witness :
    List.Sublist (available_columns dfIdOnly) display_columns
    ∧ ("사번" ∈ available_columns dfIdOnly
        ↔ "사번" ∈ display_columns ∧ "사번" ∈ dfIdOnly.cols)
    ∧ ("부서명" ∈ missing_columns dfIdOnly
        ↔ "부서명" ∈ display_columns ∧ "부서명" ∉ dfIdOnly.cols) :=
  ⟨(available_columns_spec dfIdOnly).1,
   (available_columns_spec dfIdOnly).2.1 "사번",
   (available_columns_spec dfIdOnly).2.2 "부서명"⟩

/-- C6 witness: the failure cases at concrete inputs. -/
theorem load_failure_spec_witness :
    load_simple_data none .worksheetNotFound SHEET_URL "클러스터별" = (⟨[], []⟩, [])
    ∧ load_simple_data (some ⟨0⟩) .worksheetNotFound SHEET_URL "클러스터별"
        = (⟨[], []⟩, ["'" ++ "클러스터별" ++ "' 시트를 찾을 수 없습니다. 시트 이름을 확인하세요."])
    ∧ load_simple_data (some ⟨0⟩) (.fetchError "네트워크 오류") SHEET_URL "클러스터별"
        = (⟨[], []⟩, ["시트 로드 중 오류 발생: " ++ "네트워크 오류"]) :=
  ⟨load_failure_spec.2.1 .worksheetNotFound SHEET_URL "클러스터별",
   load_failure_spec.2.2.1 ⟨0⟩ SHEET_URL "클러스터별",
   load_failure_spec.2.2.2 ⟨0⟩ SHEET_URL "클러스터별" "네트워크 오류"⟩

/-- C10 counterexample: a load failure and a successful zero-record
load produce identical composer output, but the page as a whole
differs — the failed load additionally shows the loader's own
`st.error` message (carrying the cause), which the successful empty
load does not, so the two are operator-distinguishable. -/
theorem empty_load_distinguishable_cx :
    (app_main ⟨true, false, false, fun _ => .ok ⟨0⟩⟩ (.fetchError "오류")
        (some SENTINEL)).loadMsgs
      = ["시트 로드 중 오류 발생: " ++ "오류"]
    ∧ (app_main ⟨true, false, false, fun _ => .ok ⟨0⟩⟩ (.success [])
        (some SENTINEL)).loadMsgs = []
    ∧ ¬ (app_main ⟨true, false, false, fun _ => .ok ⟨0⟩⟩ (.fetchError "오류")
          (some SENTINEL)).loadMsgs
        = (app_main ⟨true, false, false, fun _ => .ok ⟨0⟩⟩ (.success [])
          (some SENTINEL)).loadMsgs
    ∧ (app_main ⟨true, false, false, fun _ => .ok ⟨0⟩⟩ (.fetchError "오류")
          (some SENTINEL)).render
        = (app_main ⟨true, false, false, fun _ => .ok ⟨0⟩⟩ (.success [])
          (some SENTINEL)).render := by
  decide
